import Mathlib

/-!
Verification of the RedisGate request-execution core against its specification.

The definitions below are a shallow embedding of the Rust sources:
  * `src/src/auth.rs` — the token subsystem (claims records, sign/verify);
  * `src/src/handlers/redis.rs` — credential extraction, the authorization
    gate (`authenticate_and_get_instance`), the reply-to-JSON encoder
    (`redis_value_to_json`), and the body-encoded command endpoint;
  * `src/gateway/src/handlers/keys.rs` — the method-override key handlers;
  * `src/gateway/src/redis/pool.rs` — k8s service discovery and pool refresh;
  * `src/gateway/src/error.rs` — the gateway error taxonomy.

Machine integers are modelled as `Nat`/`Int` (none of the embedded paths can
overflow), UUIDs as opaque `Nat`s, database tables as lists of records, and
external effects (bcrypt verification, the k8s API, the Redis socket) as
explicit function parameters or pre-supplied results.
-/

namespace RedisGate

/-! ## Token subsystem (`src/src/auth.rs`) -/

/-- Api-key claims record (`ApiKeyClaims` in `src/src/auth.rs`).
UUIDs are opaque `Nat`s; timestamps are `Int` seconds. -/
structure ApiKeyClaims where
  api_key_id : Nat
  user_id : Nat
  organization_id : Nat
  scopes : List String
  key_prefix : String
  exp : Int
  iat : Int
deriving DecidableEq

/-- Error type of the token subsystem (`AuthError` in `src/src/auth.rs`). -/
inductive AuthError where
  | TokenCreationFailed
  | InvalidToken
  | TokenExpired
  | MissingToken
  | InvalidCredentials
  | UserNotFound
  | UserNotActive
deriving DecidableEq

/-- Modelled from the spec: a compact signed token. The `jsonwebtoken` crate
that implements `encode`/`decode` is not part of this repository's sources,
so the HMAC signature is modelled symbolically: `sig` stands for the MAC of
the payload under the signing secret, and a signature check succeeds exactly
when the verifying secret equals the signing secret (the spec's "tokens are
produced and consumed by the same symmetric secret"). -/
structure Jwt where
  claims : ApiKeyClaims
  sig : String
deriving DecidableEq

/-- `JwtManager::create_api_key_token`: sign a claims record with the
process-wide symmetric secret (`encode(&Header::default(), claims, key)`).
Modelled from the spec: signing embeds the claims verbatim and never fails
for well-formed claims. -/
def create_api_key_token (secret : String) (claims : ApiKeyClaims) : Jwt :=
  ⟨claims, secret⟩

/-- `JwtManager::verify_api_key_token`: decode with the symmetric secret.
Modelled from the spec: verification checks the signature against the same
symmetric secret and requires `exp > now` with a skew tolerance of zero;
every failure (signature mismatch, expiry) is mapped to `InvalidToken`,
exactly as `.map_err(|_| AuthError::InvalidToken)` does in the source. -/
def verify_api_key_token (secret : String) (now : Int) (token : Jwt) :
    Except AuthError ApiKeyClaims :=
  if token.sig == secret then
    if now < token.claims.exp then .ok token.claims
    else .error .InvalidToken
  else .error .InvalidToken

/-! ## Authorization gate (`src/src/handlers/redis.rs`) -/

/-- Row of the `api_keys` table as selected by `authenticate_and_get_instance`
(`SELECT id, organization_id, is_active, key_hash FROM api_keys`). -/
structure ApiKeyRecord where
  id : Nat
  organization_id : Nat
  is_active : Option Bool
  key_hash : String
deriving DecidableEq

/-- Row of the `redis_instances` table; only the columns the authorization
gate reads are modelled (the remaining columns are never consulted). -/
structure RedisInstance where
  id : Nat
  organization_id : Nat
  deleted_at : Option Int
deriving DecidableEq

/-- The relational store consumed by the handlers. -/
structure Db where
  api_keys : List ApiKeyRecord
  redis_instances : List RedisInstance

/-- The SQL filter `WHERE is_active = true` of the api-key query: a NULL
`is_active` does not compare equal to `true`. -/
def active_api_keys (db : Db) : List ApiKeyRecord :=
  db.api_keys.filter (fun r => r.is_active == some true)

/-- The credential-resolution step of `authenticate_and_get_instance`:
fetch all active api-key rows and find the first whose bcrypt hash matches
the presented key. `verify_password` (bcrypt, external) is a parameter;
`unwrap_or(false)` on its error case is absorbed into the parameter. -/
def find_api_key (verify_password : String → String → Bool) (db : Db)
    (api_key : String) : Option ApiKeyRecord :=
  (active_api_keys db).find? (fun r => verify_password api_key r.key_hash)

/-- The instance query of `authenticate_and_get_instance`:
`WHERE id = $1 AND organization_id = $2 AND deleted_at IS NULL`,
`fetch_optional`. -/
def instance_lookup (db : Db) (instance_id organization_id : Nat) :
    Option RedisInstance :=
  db.redis_instances.find? (fun i =>
    i.id == instance_id && i.organization_id == organization_id &&
      i.deleted_at == none)

/-- `authenticate_and_get_instance` from `src/src/handlers/redis.rs`:
resolve the credential against the active api-key rows (else 401), re-check
`is_active.unwrap_or(false)` (else 401), then look the instance up filtered
by the credential's organization and `deleted_at IS NULL` (else 404).
Errors are `(status, message)` pairs as produced by the source. -/
def authenticate_and_get_instance (verify_password : String → String → Bool)
    (db : Db) (api_key : String) (instance_id : Nat) :
    Except (Nat × String) RedisInstance :=
  match find_api_key verify_password db api_key with
  | none => .error (401, "Invalid API key")
  | some record =>
    if !(record.is_active.getD false) then
      .error (401, "API key is not active")
    else
      match instance_lookup db instance_id record.organization_id with
      | none => .error (404, "Redis instance not found")
      | some inst => .ok inst

/-! ## Credential extraction (`extract_api_key`) -/

/-- `auth_str.strip_prefix("Bearer ")`: strip the 7-character scheme
marker, returning the remainder when the value starts with it. -/
def bearer_token (value : String) : Option String :=
  if value.data.take 7 = "Bearer ".data then
    some (String.mk (value.data.drop 7))
  else none

/-- The `_token` query-parameter lookup (`query.get("_token")`). Query
parameters are an association list; lookup returns the first binding. -/
def query_token (query : List (String × String)) : Option String :=
  (query.find? (fun p => p.fst == "_token")).map (fun p => p.snd)

/-- `extract_api_key` from `src/src/handlers/redis.rs`: first try the
`authorization` header for a `Bearer `-prefixed value, then fall back to
the `_token` query parameter; `None` when neither yields a credential. -/
def extract_api_key (headers : List (String × String))
    (query : List (String × String)) : Option String :=
  match headers.find? (fun p => p.fst == "authorization") with
  | some p =>
    match bearer_token p.snd with
    | some token => some token
    | none => query_token query
  | none => query_token query

/-- Observable outcome of a path-encoded command handler: HTTP status, the
error message when one is produced, and whether the handler ever reached
`get_redis_connection` (i.e. attempted to open a Redis connection). -/
structure HandlerTrace where
  status : Nat
  error : Option String
  connection_attempted : Bool
deriving DecidableEq

/-- The shared prefix of every path-encoded command handler in
`src/src/handlers/redis.rs` (`handle_ping`, `handle_get`, …): extract the
credential (else 401 "Missing API key"), authenticate (propagating its
status and message), then call `get_redis_connection`; `connect_ok` stands
for whether that localhost connection succeeds (external). -/
def handle_redis_command (verify_password : String → String → Bool) (db : Db)
    (headers query : List (String × String)) (instance_id : Nat)
    (connect_ok : Bool) : HandlerTrace :=
  match extract_api_key headers query with
  | none => ⟨401, some "Missing API key", false⟩
  | some api_key =>
    match authenticate_and_get_instance verify_password db api_key instance_id with
    | .error (status, msg) => ⟨status, some msg, false⟩
    | .ok _ =>
      if connect_ok then ⟨200, none, true⟩
      else ⟨500, some "Failed to connect to Redis", true⟩

/-! ## JSON values and the body-encoded endpoint -/

/-- Subset of `serde_json::Value` that the embedded paths construct and
inspect (`Null`, `Number` over `i64`, `String`, `Array`). -/
inductive JValue where
  | null
  | num (n : Int)
  | str (s : String)
  | arr (vs : List JValue)

/-- `Value::as_str()`: `Some` exactly on JSON strings. -/
def as_str : JValue → Option String
  | .str s => some s
  | _ => none

/-- Serde's `Value::to_string()` for the fall-through argument case
(string escaping elided: the embedded claims never reach it on strings). -/
def JValue.render : JValue → String
  | .null => "null"
  | .num n => toString n
  | .str s => "\"" ++ s ++ "\""
  | .arr vs =>
    "[" ++ String.intercalate "," (vs.attach.map (fun x => JValue.render x.1)) ++ "]"
decreasing_by
  simp_wf
  have := List.sizeOf_lt_of_mem x.2
  omega

/-- Argument conversion of `handle_generic_command`: strings pass through,
numbers are stringified, anything else is serialized. -/
def command_arg : JValue → String
  | .str s => s
  | .num n => toString n
  | v => JValue.render v

/-- Observable outcome of the body-encoded endpoint: HTTP status, error
message, and the Redis command (name and arguments) actually dispatched,
`none` when execution never reached a command. -/
structure GenericOutcome where
  status : Nat
  error : Option String
  command_sent : Option (String × List String)
deriving DecidableEq

/-- `handle_generic_command` from `src/src/handlers/redis.rs` up to command
dispatch: credential extraction (401), authentication (status/message
propagated), connection (`connect_ok`, external), then the body checks —
empty array ⇒ 400 "Empty command", non-string first element ⇒ 400
"Invalid command format" — and finally the per-command dispatch, modelled
by the parameter `exec` applied to the command name and converted
arguments. -/
def handle_generic_command (verify_password : String → String → Bool) (db : Db)
    (headers query : List (String × String)) (instance_id : Nat)
    (connect_ok : Bool) (payload : List JValue)
    (exec : String → List String → GenericOutcome) : GenericOutcome :=
  match extract_api_key headers query with
  | none => ⟨401, some "Missing API key", none⟩
  | some api_key =>
    match authenticate_and_get_instance verify_password db api_key instance_id with
    | .error (status, msg) => ⟨status, some msg, none⟩
    | .ok _ =>
      if !connect_ok then ⟨500, some "Failed to connect to Redis", none⟩
      else
        match payload with
        | [] => ⟨400, some "Empty command", none⟩
        | first :: rest =>
          match as_str first with
          | none => ⟨400, some "Invalid command format", none⟩
          | some command => exec command (rest.map command_arg)

/-! ## Reply encoding (`redis_value_to_json`)

`String::from_utf8` (Rust standard library, external to this repository) is
modelled by an executable UTF-8 decoder over byte lists, faithful to the
UTF-8 specification both Rust and Lean implement: multi-byte sequences
require `10xxxxxx` continuation bytes, overlong encodings, UTF-16
surrogates and values above `0x10FFFF` are rejected. The arithmetic uses
`/ 0x40` and `% 0x40` in place of the usual shifts and masks. -/

/-- Decode one 2-byte UTF-8 sequence headed by `b`: require a continuation
byte and reject overlong encodings (`value < 0x80`). -/
def utf8Head2 (b : Nat) : List Nat → Option (Nat × List Nat)
  | b1 :: rest2 =>
    if 0x80 ≤ b1 ∧ b1 < 0xC0 then
      if 0x80 ≤ (b - 0xC0) * 0x40 + (b1 - 0x80) then
        some ((b - 0xC0) * 0x40 + (b1 - 0x80), rest2)
      else none
    else none
  | [] => none

/-- Decode one 3-byte UTF-8 sequence headed by `b`: require two
continuation bytes, reject overlong encodings (`value < 0x800`) and UTF-16
surrogates (`0xD800..0xDFFF`). -/
def utf8Head3 (b : Nat) : List Nat → Option (Nat × List Nat)
  | b1 :: b2 :: rest3 =>
    if (0x80 ≤ b1 ∧ b1 < 0xC0) ∧ (0x80 ≤ b2 ∧ b2 < 0xC0) then
      if 0x800 ≤ (b - 0xE0) * 0x1000 + (b1 - 0x80) * 0x40 + (b2 - 0x80) ∧
          ((b - 0xE0) * 0x1000 + (b1 - 0x80) * 0x40 + (b2 - 0x80) < 0xD800 ∨
            0xDFFF < (b - 0xE0) * 0x1000 + (b1 - 0x80) * 0x40 + (b2 - 0x80)) then
        some ((b - 0xE0) * 0x1000 + (b1 - 0x80) * 0x40 + (b2 - 0x80), rest3)
      else none
    else none
  | _ => none

/-- Decode one 4-byte UTF-8 sequence headed by `b`: require three
continuation bytes and a value in `0x10000..0x10FFFF`. -/
def utf8Head4 (b : Nat) : List Nat → Option (Nat × List Nat)
  | b1 :: b2 :: b3 :: rest4 =>
    if ((0x80 ≤ b1 ∧ b1 < 0xC0) ∧ (0x80 ≤ b2 ∧ b2 < 0xC0)) ∧
        (0x80 ≤ b3 ∧ b3 < 0xC0) then
      if 0x10000 ≤ (b - 0xF0) * 0x40000 + (b1 - 0x80) * 0x1000 +
            (b2 - 0x80) * 0x40 + (b3 - 0x80) ∧
          (b - 0xF0) * 0x40000 + (b1 - 0x80) * 0x1000 +
            (b2 - 0x80) * 0x40 + (b3 - 0x80) < 0x110000 then
        some ((b - 0xF0) * 0x40000 + (b1 - 0x80) * 0x1000 +
          (b2 - 0x80) * 0x40 + (b3 - 0x80), rest4)
      else none
    else none
  | _ => none

/-- Decode the first scalar value of a UTF-8 byte sequence, returning it
with the unconsumed remainder; `none` on an empty or ill-formed head.
Bytes are `Nat`s: any entry outside `0..0xF7` falls into a rejecting
branch, so byte-range validity is implied. -/
def utf8Head (l : List Nat) : Option (Nat × List Nat) :=
  match l with
  | [] => none
  | b :: rest =>
    if b < 0x80 then some (b, rest)
    else if b < 0xC0 then none
    else if b < 0xE0 then utf8Head2 b rest
    else if b < 0xF0 then utf8Head3 b rest
    else if b < 0xF8 then utf8Head4 b rest
    else none

/-- Decode a UTF-8 byte sequence into Unicode scalar values, spending one
unit of fuel per decoded character (each character consumes at least one
byte, so `l.length` fuel always suffices). -/
def utf8Run : Nat → List Nat → Option (List Char)
  | _, [] => some []
  | 0, _ :: _ => none
  | fuel + 1, b :: rest =>
    match utf8Head (b :: rest) with
    | some (v, rest2) => Option.map (fun cs => Char.ofNat v :: cs) (utf8Run fuel rest2)
    | none => none

/-- Decode a UTF-8 byte sequence into Unicode scalar values; `none` exactly
when the bytes are not valid UTF-8. -/
def utf8DecodeChars (l : List Nat) : Option (List Char) :=
  utf8Run l.length l

/-- `String::from_utf8(bytes)` as an `Option`: the decoded string, or `none`
on invalid UTF-8. -/
def utf8Decode (bytes : List Nat) : Option String :=
  (utf8DecodeChars bytes).map String.mk

/-- UTF-8 encoding of a single Unicode scalar value. -/
def utf8EncodeChar (v : Nat) : List Nat :=
  if v < 0x80 then [v]
  else if v < 0x800 then
    [0xC0 + v / 0x40, 0x80 + v % 0x40]
  else if v < 0x10000 then
    [0xE0 + v / 0x1000, 0x80 + v / 0x40 % 0x40, 0x80 + v % 0x40]
  else
    [0xF0 + v / 0x40000, 0x80 + v / 0x1000 % 0x40, 0x80 + v / 0x40 % 0x40,
      0x80 + v % 0x40]

/-- UTF-8 encoding of a character sequence. -/
def utf8EncodeList : List Char → List Nat
  | [] => []
  | c :: cs => utf8EncodeChar c.toNat ++ utf8EncodeList cs

/-- UTF-8 encoding of a string (Rust's `String::into_bytes`). -/
def utf8Encode (s : String) : List Nat :=
  utf8EncodeList s.data

/-- `redis::Value`: the tagged reply variant of the `redis` crate as matched
by `redis_value_to_json` (`Nil`, `Int`, `Data`, `Bulk`, `Status`, `Okay`). -/
inductive RValue where
  | nil
  | int (i : Int)
  | data (bytes : List Nat)
  | bulk (values : List RValue)
  | status (s : String)
  | okay

/-- `redis_value_to_json` from `src/src/handlers/redis.rs`: nil ⇒ null,
integers ⇒ JSON numbers, bulk data ⇒ the decoded string when the bytes are
valid UTF-8 and null otherwise, arrays recursively, status strings ⇒ JSON
strings, `Okay` ⇒ `"OK"`. -/
def redis_value_to_json : RValue → JValue
  | .nil => .null
  | .int i => .num i
  | .data bytes =>
    match utf8Decode bytes with
    | some s => .str s
    | none => .null
  | .bulk values => .arr (values.attach.map (fun x => redis_value_to_json x.1))
  | .status s => .str s
  | .okay => .str "OK"
decreasing_by
  simp_wf
  have := List.sizeOf_lt_of_mem x.2
  omega

/-! ## Gateway error taxonomy (`src/gateway/src/error.rs`) -/

/-- `GatewayError`; error payloads are collapsed to their display strings. -/
inductive GatewayError where
  | Redis (msg : String)
  | Pool (msg : String)
  | Unauthorized
  | InstanceNotFound (id : String)
  | RedisConnectionError (msg : String)
  | BadRequest (msg : String)
  | Internal
  | KubeError (msg : String)
  | CreatePool (msg : String)
  | SerdeJson (msg : String)
deriving DecidableEq

/-- The HTTP status assigned to each error by `IntoResponse for GatewayError`. -/
def GatewayError.status : GatewayError → Nat
  | .Redis _ => 500
  | .Pool _ => 500
  | .Unauthorized => 401
  | .InstanceNotFound _ => 404
  | .RedisConnectionError _ => 400
  | .BadRequest _ => 400
  | .Internal => 500
  | .KubeError _ => 500
  | .CreatePool _ => 500
  | .SerdeJson _ => 400

/-! ## Gateway key handlers (`src/gateway/src/handlers/keys.rs`) -/

/-- Query parameters of the GET key route (`MethodOverride`). The `u64`
TTL is a `Nat`. -/
structure MethodOverride where
  method : Option String
  value : Option String
  ttl_seconds : Option Nat
deriving DecidableEq

/-- Body of the SET route (`SetKeyRequest`). -/
structure SetKeyRequest where
  value : String
  ttl_seconds : Option Nat
deriving DecidableEq

/-- The Redis command a gateway key handler dispatches; the observable of
the handler model (reply handling is external to the claims). -/
inductive RedisCmd where
  | get (key : String)
  | set (key value : String)
  | setex (key : String) (ttl : Nat) (value : String)
  | del (key : String)
deriving DecidableEq

/-- Rust's `str::to_uppercase`, character-wise (the handler only compares
the result against the ASCII words POST and DELETE). -/
def to_uppercase (s : String) : String :=
  String.mk (s.data.map Char.toUpper)

/-- `set_key`: acquire the instance's client (else `InstanceNotFound`), then
dispatch SETEX when a TTL is supplied and SET otherwise. `get_client`
abstracts `state.redis_pool.get_client` (pool and network, external). -/
def set_key (get_client : String → Bool) (instance_name key : String)
    (payload : SetKeyRequest) : Except GatewayError RedisCmd :=
  if get_client instance_name then
    match payload.ttl_seconds with
    | some ttl => .ok (.setex key ttl payload.value)
    | none => .ok (.set key payload.value)
  else .error (.InstanceNotFound instance_name)

/-- `set_key_override`: reject with `BadRequest` when the `value` query
parameter is absent, otherwise forward to `set_key`. -/
def set_key_override (get_client : String → Bool) (instance_name key : String)
    (params : MethodOverride) : Except GatewayError RedisCmd :=
  match params.value with
  | none =>
    .error (.BadRequest "Missing \x27value\x27 parameter for SET operation")
  | some v => set_key get_client instance_name key ⟨v, params.ttl_seconds⟩

/-- `delete_key_method`: acquire the client, then dispatch DEL. -/
def delete_key_method (get_client : String → Bool)
    (instance_name key : String) : Except GatewayError RedisCmd :=
  if get_client instance_name then .ok (.del key)
  else .error (.InstanceNotFound instance_name)

/-- The plain-GET tail of `get_key` (after the override check falls
through): acquire the client, then dispatch GET. -/
def get_key_base (get_client : String → Bool) (instance_name key : String) :
    Except GatewayError RedisCmd :=
  if get_client instance_name then .ok (.get key)
  else .error (.InstanceNotFound instance_name)

/-- `get_key`: when a `method` query parameter is present, its uppercased
value selects SET (`POST`, via `set_key_override`) or DEL (`DELETE`, via
`delete_key_method`); any other value — and the absence of the parameter —
falls through to the plain GET path. -/
def get_key (get_client : String → Bool) (instance_name key : String)
    (params : MethodOverride) : Except GatewayError RedisCmd :=
  match params.method with
  | some m =>
    if to_uppercase m == "POST" then
      set_key_override get_client instance_name key params
    else if to_uppercase m == "DELETE" then
      delete_key_method get_client instance_name key
    else get_key_base get_client instance_name key
  | none => get_key_base get_client instance_name key

/-! ## Service discovery and pool refresh (`src/gateway/src/redis/pool.rs`) -/

/-- A declared port of a k8s `Service` (`ServicePort.port`, an `i32`). -/
structure ServicePort where
  port : Int
deriving DecidableEq

/-- The `spec.ports` slice of a k8s `Service` (both levels optional in the
k8s API). -/
structure ServiceSpec where
  ports : Option (List ServicePort)
deriving DecidableEq

/-- The metadata of a k8s `Service` (`name` and `namespace`, optional). -/
structure ServiceMeta where
  name : Option String
  nspace : Option String
deriving DecidableEq

/-- A k8s `Service` object as read by `discover_redis_service`. -/
structure K8sService where
  metadata : ServiceMeta
  spec : Option ServiceSpec
deriving DecidableEq

/-- `RedisPoolManager::discover_redis_service`: the k8s API call
`services.get(instance_name)` is external, so its result is a parameter.
On success, require `metadata.name` and `metadata.namespace`, build the
host `{name}.{namespace}.svc.cluster.local`, take the first declared port
— `unwrap_or(6379)` when the spec or its port list is absent or empty —
and produce the redis URL, embedding the configured default password when
one is set; a `Service` without name or namespace is `InstanceNotFound`,
and a k8s API error propagates as `KubeError`. -/
def discover_redis_service (default_password : Option String)
    (instance_name : String) (service_result : Except String K8sService) :
    Except GatewayError String :=
  match service_result with
  | .error e => .error (.KubeError e)
  | .ok service =>
    match service.metadata.name, service.metadata.nspace with
    | some name, some ns =>
      let host := name ++ "." ++ ns ++ ".svc.cluster.local"
      let port :=
        (((service.spec.bind ServiceSpec.ports).bind List.head?).map
          ServicePort.port).getD 6379
      match default_password with
      | some pw =>
        .ok ("redis://:" ++ pw ++ "@" ++ host ++ ":" ++ toString port)
      | none => .ok ("redis://" ++ host ++ ":" ++ toString port)
    | _, _ => .error (.InstanceNotFound instance_name)

/-- `RedisPoolManager::refresh_pools`. The registry is a keyed list of
pools (`π` abstracts `deadpool_redis::Pool`); `discovered` is the result of
`discover_all_instances` (k8s, external) and `create_pool` the result of
`create_pool_for_instance` per instance (network, external). Outside the
cluster (`KUBERNETES_SERVICE_HOST` unset) the sweep returns `Ok` at once;
inside, pools of vanished instances are removed and pools are created for
newly discovered instances. -/
def refresh_pools {π : Type} (in_cluster : Bool)
    (discovered : Except String (List String))
    (create_pool : String → Option π) (pools : List (String × π)) :
    Except GatewayError Unit × List (String × π) :=
  if !in_cluster then (.ok (), pools)
  else
    match discovered with
    | .error e => (.error (.KubeError e), pools)
    | .ok instances =>
      let current := pools.map Prod.fst
      let kept := pools.filter (fun p => instances.contains p.fst)
      let added := (instances.filter (fun i => !current.contains i)).filterMap
        (fun i => (create_pool i).map (fun pl => (i, pl)))
      (.ok (), kept ++ added)

/-- Success test on a handler result (`Result::is_ok`). -/
def exceptOk {ε α : Type} : Except ε α → Bool
  | .ok _ => true
  | .error _ => false

/-! ## Helper lemmas -/

theorem string_mk_data (s : String) : String.mk s.data = s := rfl

theorem bearer_token_append (t : String) :
    bearer_token ("Bearer " ++ t) = some t := by
  unfold bearer_token
  rw [String.data_append]
  rw [List.take_left' (show ("Bearer ".data).length = 7 by decide)]
  rw [List.drop_left' (show ("Bearer ".data).length = 7 by decide)]
  simp [string_mk_data]

theorem utf8Head_encodeChar (v : Nat)
    (hv : v < 0xD800 ∨ (0xDFFF < v ∧ v < 0x110000)) (rest : List Nat) :
    utf8Head (utf8EncodeChar v ++ rest) = some (v, rest) := by
  by_cases h1 : v < 0x80
  · simp only [utf8EncodeChar, if_pos h1, List.cons_append, List.nil_append]
    simp [utf8Head, h1]
  · by_cases h2 : v < 0x800
    · simp only [utf8EncodeChar, if_neg h1, if_pos h2, List.cons_append,
        List.nil_append]
      have ha : ¬ (0xC0 + v / 0x40) < 0x80 := by omega
      have hb : ¬ (0xC0 + v / 0x40) < 0xC0 := by omega
      have hc : (0xC0 + v / 0x40) < 0xE0 := by omega
      have hg : 0x80 ≤ 0x80 + v % 0x40 ∧ 0x80 + v % 0x40 < 0xC0 := by omega
      have hval : (0xC0 + v / 0x40 - 0xC0) * 0x40 + (0x80 + v % 0x40 - 0x80)
          = v := by omega
      have hge : 0x80 ≤ v := by omega
      simp [utf8Head, ha, hb, hc, utf8Head2, hg, hval, hge]
      omega
    · by_cases h3 : v < 0x10000
      · simp only [utf8EncodeChar, if_neg h1, if_neg h2, if_pos h3,
          List.cons_append, List.nil_append]
        have ha : ¬ (0xE0 + v / 0x1000) < 0x80 := by omega
        have hb : ¬ (0xE0 + v / 0x1000) < 0xC0 := by omega
        have hc : ¬ (0xE0 + v / 0x1000) < 0xE0 := by omega
        have hd : (0xE0 + v / 0x1000) < 0xF0 := by omega
        have hg1 : 0x80 ≤ 0x80 + v / 0x40 % 0x40 ∧
            0x80 + v / 0x40 % 0x40 < 0xC0 := by omega
        have hg2 : 0x80 ≤ 0x80 + v % 0x40 ∧ 0x80 + v % 0x40 < 0xC0 := by omega
        have hval : (0xE0 + v / 0x1000 - 0xE0) * 0x1000 +
            (0x80 + v / 0x40 % 0x40 - 0x80) * 0x40 + (0x80 + v % 0x40 - 0x80)
            = v := by omega
        have hge : 0x800 ≤ v := by omega
        have hsur : v < 0xD800 ∨ 0xDFFF < v := by
          rcases hv with h | ⟨h, _⟩
          · exact Or.inl h
          · exact Or.inr h
        simp [utf8Head, ha, hb, hc, hd, utf8Head3, hg1, hg2, hval, hge, hsur]
        omega
      · have h4 : v < 0x110000 := by
          rcases hv with h | ⟨_, h⟩
          · omega
          · exact h
        simp only [utf8EncodeChar, if_neg h1, if_neg h2, if_neg h3,
          List.cons_append, List.nil_append]
        have ha : ¬ (0xF0 + v / 0x40000) < 0x80 := by omega
        have hb : ¬ (0xF0 + v / 0x40000) < 0xC0 := by omega
        have hc : ¬ (0xF0 + v / 0x40000) < 0xE0 := by omega
        have hd : ¬ (0xF0 + v / 0x40000) < 0xF0 := by omega
        have he : (0xF0 + v / 0x40000) < 0xF8 := by omega
        have hg1 : 0x80 ≤ 0x80 + v / 0x1000 % 0x40 ∧
            0x80 + v / 0x1000 % 0x40 < 0xC0 := by omega
        have hg2 : 0x80 ≤ 0x80 + v / 0x40 % 0x40 ∧
            0x80 + v / 0x40 % 0x40 < 0xC0 := by omega
        have hg3 : 0x80 ≤ 0x80 + v % 0x40 ∧ 0x80 + v % 0x40 < 0xC0 := by omega
        have hval : (0xF0 + v / 0x40000 - 0xF0) * 0x40000 +
            (0x80 + v / 0x1000 % 0x40 - 0x80) * 0x1000 +
            (0x80 + v / 0x40 % 0x40 - 0x80) * 0x40 + (0x80 + v % 0x40 - 0x80)
            = v := by omega
        have hge : 0x10000 ≤ v := by omega
        simp [utf8Head, ha, hb, hc, hd, he, utf8Head4, hg1, hg2, hg3, hval,
          hge, h4]
        omega

theorem utf8EncodeChar_cons (v : Nat) : ∃ b bs, utf8EncodeChar v = b :: bs := by
  unfold utf8EncodeChar
  split
  · exact ⟨_, _, rfl⟩
  · split
    · exact ⟨_, _, rfl⟩
    · split
      · exact ⟨_, _, rfl⟩
      · exact ⟨_, _, rfl⟩

theorem utf8Run_encodeList (cs : List Char) : ∀ fuel,
    (utf8EncodeList cs).length ≤ fuel →
    utf8Run fuel (utf8EncodeList cs) = some cs := by
  induction cs with
  | nil =>
    intro fuel h
    cases fuel <;> rfl
  | cons c cs ih =>
    intro fuel h
    have hvalid : c.toNat < 0xD800 ∨ (0xDFFF < c.toNat ∧ c.toNat < 0x110000) := by
      rcases c.valid with h | ⟨ha, hb⟩
      · exact Or.inl h
      · exact Or.inr ⟨ha, hb⟩
    obtain ⟨b, bs, henc⟩ := utf8EncodeChar_cons c.toNat
    rw [utf8EncodeList] at h ⊢
    obtain ⟨f, rfl⟩ : ∃ f, fuel = f + 1 := by
      have h1 : 1 ≤ (utf8EncodeChar c.toNat ++ utf8EncodeList cs).length := by
        rw [henc]
        simp
      exact ⟨fuel - 1, by omega⟩
    have hlen : (utf8EncodeList cs).length ≤ f := by
      rw [henc] at h
      simp at h
      omega
    rw [henc, List.cons_append, utf8Run, ← List.cons_append, ← henc,
      utf8Head_encodeChar c.toNat hvalid]
    simp [ih f hlen, Char.ofNat_toNat]

theorem utf8Decode_encode (s : String) : utf8Decode (utf8Encode s) = some s := by
  unfold utf8Decode utf8Encode utf8DecodeChars
  rw [utf8Run_encodeList s.data _ le_rfl]
  rfl

/-! ## Claim theorems -/

/-- C3: for every token and verification time `now`, a token whose `exp`
satisfies `exp ≤ now` fails verification with `InvalidToken`, and the skew
tolerance is exactly zero: with a matching signature, any `exp > now`
(even `exp = now + 1`) verifies. -/
theorem verify_rejects_expired_token (secret : String) (now : Int)
    (token : Jwt) :
    (token.claims.exp ≤ now →
      verify_api_key_token secret now token = .error .InvalidToken)
    ∧ (token.sig = secret → now < token.claims.exp →
      verify_api_key_token secret now token = .ok token.claims) := by
  constructor
  · intro h
    unfold verify_api_key_token
    have hnot : ¬ now < token.claims.exp := by omega
    by_cases hs : token.sig == secret <;> simp [hs, hnot]
  · intro hs hlt
    simp [verify_api_key_token, hs, hlt]

/-- Witness for C3: a token with `exp = 5` presented at `now = 5` is
rejected as `InvalidToken`. -/
theorem verify_rejects_expired_token_witness :
    verify_api_key_token "s" 5 ⟨⟨1, 2, 3, [], "rg_demo", 5, 0⟩, "s"⟩ =
      .error .InvalidToken :=
  (verify_rejects_expired_token "s" 5 ⟨⟨1, 2, 3, [], "rg_demo", 5, 0⟩, "s"⟩).1
    (by decide)

/-- C4: signing a well-formed api-key claims record whose `exp` lies in the
future and verifying with the same symmetric secret succeeds and returns a
claims record equal to the input (all fields included). -/
theorem verify_sign_roundtrip (secret : String) (now : Int)
    (c : ApiKeyClaims) (h : now < c.exp) :
    verify_api_key_token secret now (create_api_key_token secret c) = .ok c := by
  simp [verify_api_key_token, create_api_key_token, h]

/-- Witness for C4: a concrete claims record with `exp = 100` signed and
verified at `now = 0` comes back unchanged. -/
theorem verify_sign_roundtrip_witness :
    verify_api_key_token "s" 0
      (create_api_key_token "s" ⟨1, 2, 3, ["read"], "rg_demo", 100, 0⟩) =
      .ok ⟨1, 2, 3, ["read"], "rg_demo", 100, 0⟩ :=
  verify_sign_roundtrip "s" 0 ⟨1, 2, 3, ["read"], "rg_demo", 100, 0⟩ (by decide)

/-- C9: outside the cluster, `refresh_pools` returns success and leaves the
pool registry exactly as it was — no pool is created, removed or replaced —
for every discovery result and pool constructor. -/
theorem refresh_pools_noop_off_cluster {π : Type}
    (discovered : Except String (List String))
    (create_pool : String → Option π) (pools : List (String × π)) :
    refresh_pools false discovered create_pool pools = (.ok (), pools) := rfl

/-- C7: on the GET key route, a `method=POST` override executes SET of the
supplied value (SETEX with a TTL) and fails with `BadRequest` when `value`
is absent; `method=DELETE` executes DEL; with no recognized override (the
parameter absent, or any value whose uppercasing is neither POST nor
DELETE) the request performs GET. -/
theorem method_override_dispatch (get_client : String → Bool)
    (instance_name key : String) (params : MethodOverride)
    (hclient : get_client instance_name = true) :
    (params.method = some "POST" →
      (params.value = none →
        get_key get_client instance_name key params =
          .error (.BadRequest "Missing \x27value\x27 parameter for SET operation"))
      ∧ (∀ v, params.value = some v →
        get_key get_client instance_name key params =
          .ok (match params.ttl_seconds with
              | some t => .setex key t v
              | none => .set key v)))
    ∧ (params.method = some "DELETE" →
      get_key get_client instance_name key params = .ok (.del key))
    ∧ (∀ m, params.method = some m → to_uppercase m ≠ "POST" →
      to_uppercase m ≠ "DELETE" →
      get_key get_client instance_name key params = .ok (.get key))
    ∧ (params.method = none →
      get_key get_client instance_name key params = .ok (.get key)) := by
  refine ⟨fun hm => ⟨fun hv => ?_, fun v hv => ?_⟩, fun hm => ?_,
    fun m hm hP hD => ?_, fun hm => ?_⟩
  · simp [get_key, hm, set_key_override, hv, (by decide : to_uppercase "POST" = "POST")]
  · cases httl : params.ttl_seconds <;>
      simp [get_key, hm, set_key_override, hv, set_key, hclient, httl,
        (by decide : to_uppercase "POST" = "POST")]
  · simp [get_key, hm, delete_key_method, hclient,
      (by decide : to_uppercase "DELETE" = "DELETE")]
  · have hP' : (to_uppercase m == "POST") = false := by
      simpa using hP
    have hD' : (to_uppercase m == "DELETE") = false := by
      simpa using hD
    simp [get_key, hm, hP', hD', get_key_base, hclient]
  · simp [get_key, hm, get_key_base, hclient]

/-- Witness for C7: with `method=POST` and `value=v` supplied on the GET
route, the dispatched command is `SET k v`. -/
theorem method_override_dispatch_witness :
    get_key (fun _ => true) "inst" "k" ⟨some "POST", some "v", none⟩ =
      .ok (.set "k" "v") :=
  ((method_override_dispatch (fun _ => true) "inst" "k"
    ⟨some "POST", some "v", none⟩ rfl).1 rfl).2 "v" rfl

/-- C8 counterexample: a k8s `Service` with metadata but an empty port list
does not make discovery fail — the port silently defaults to 6379 and
discovery succeeds (there is no `ServiceDiscoveryFailed` variant in
`GatewayError` at all). -/
theorem no_ports_defaults_counterexample :
    discover_redis_service none "my-redis"
      (.ok ⟨⟨some "my-redis", some "default"⟩, some ⟨some []⟩⟩) =
      .ok "redis://my-redis.default.svc.cluster.local:6379"
    ∧ exceptOk (discover_redis_service none "my-redis"
      (.ok ⟨⟨some "my-redis", some "default"⟩, some ⟨some []⟩⟩)) = true := by
  exact ⟨rfl, rfl⟩

/-- C8 amended: in-cluster discovery resolves the host as
`{service_name}.{namespace}.svc.cluster.local` with the first port declared
by the k8s `Service`; a `Service` that declares no ports (or no spec) gets
the default port 6379 instead of failing. -/
theorem discover_service_resolution (instance_name : String)
    (service : K8sService) (name ns : String)
    (hname : service.metadata.name = some name)
    (hns : service.metadata.nspace = some ns) :
    (∀ p rest, service.spec = some ⟨some (p :: rest)⟩ →
      discover_redis_service none instance_name (.ok service) =
        .ok ("redis://" ++ (name ++ "." ++ ns ++ ".svc.cluster.local") ++
          ":" ++ toString p.port))
    ∧ (service.spec = some ⟨some []⟩ →
      discover_redis_service none instance_name (.ok service) =
        .ok ("redis://" ++ (name ++ "." ++ ns ++ ".svc.cluster.local") ++
          ":" ++ toString (6379 : Int)))
    ∧ (service.spec = none →
      discover_redis_service none instance_name (.ok service) =
        .ok ("redis://" ++ (name ++ "." ++ ns ++ ".svc.cluster.local") ++
          ":" ++ toString (6379 : Int))) := by
  refine ⟨fun p rest hspec => ?_, fun hspec => ?_, fun hspec => ?_⟩ <;>
    simp [discover_redis_service, hname, hns, hspec, Option.bind]

/-- Witness for C8: a `Service` named `svc` in namespace `ns` declaring
port 7001 resolves to `redis://svc.ns.svc.cluster.local:7001`. -/
theorem discover_service_resolution_witness :
    discover_redis_service none "inst"
      (.ok ⟨⟨some "svc", some "ns"⟩, some ⟨some [⟨7001⟩]⟩⟩) =
      .ok ("redis://" ++ ("svc" ++ "." ++ "ns" ++ ".svc.cluster.local") ++
        ":" ++ toString (7001 : Int)) :=
  (discover_service_resolution "inst"
    ⟨⟨some "svc", some "ns"⟩, some ⟨some [⟨7001⟩]⟩⟩ "svc" "ns" rfl rfl).1
    ⟨7001⟩ [] rfl

/-- C1: when the presented credential resolves to an active api-key record
`r`, the authorization gate accepts (returns the instance, proceeding to
command execution) iff some non-deleted instance with the requested id is
owned by `r`'s organization; a credential that resolves to no record is
always rejected. -/
theorem auth_gate_accepts_iff (verify_password : String → String → Bool)
    (db : Db) (api_key : String) (instance_id : Nat) :
    (∀ r, find_api_key verify_password db api_key = some r →
      ((∃ inst, authenticate_and_get_instance verify_password db api_key
          instance_id = .ok inst) ↔
        ∃ inst ∈ db.redis_instances, inst.id = instance_id ∧
          inst.organization_id = r.organization_id ∧ inst.deleted_at = none))
    ∧ (find_api_key verify_password db api_key = none →
      ∀ inst, authenticate_and_get_instance verify_password db api_key
        instance_id ≠ .ok inst) := by
  constructor
  · intro r hfind
    have hactive : r.is_active = some true := by
      have hmem := List.mem_of_find?_eq_some hfind
      have hfilt := (List.mem_filter.mp hmem).2
      simpa using hfilt
    unfold authenticate_and_get_instance
    rw [hfind]
    simp only [hactive, Option.getD_some, Bool.not_true, Bool.false_eq_true,
      if_false]
    cases hlk : instance_lookup db instance_id r.organization_id with
    | none =>
      simp only [hlk]
      constructor
      · rintro ⟨inst, hinst⟩
        exact absurd hinst (by simp)
      · rintro ⟨inst, hmem, hid, horg, hdel⟩
        have := List.find?_eq_none.mp hlk inst hmem
        simp [hid, horg, hdel] at this
    | some i =>
      simp only [hlk]
      constructor
      · rintro ⟨inst, hinst⟩
        have hp := List.find?_some hlk
        have hm := List.mem_of_find?_eq_some hlk
        simp only [Bool.and_eq_true, beq_iff_eq] at hp
        exact ⟨i, hm, hp.1.1, hp.1.2, hp.2⟩
      · intro _
        exact ⟨i, rfl⟩
  · intro hfind inst
    unfold authenticate_and_get_instance
    rw [hfind]
    simp

/-- Witness for C1: a concrete database where the credential's organization
owns the live target instance; the gate accepts. -/
theorem auth_gate_accepts_iff_witness :
    ∃ inst, authenticate_and_get_instance (fun k h => k == h)
      ⟨[⟨1, 7, some true, "k"⟩], [⟨5, 7, none⟩]⟩ "k" 5 = .ok inst :=
  ((auth_gate_accepts_iff (fun k h => k == h)
    ⟨[⟨1, 7, some true, "k"⟩], [⟨5, 7, none⟩]⟩ "k" 5).1
    ⟨1, 7, some true, "k"⟩ (by decide)).mpr
    ⟨⟨5, 7, none⟩, by decide, rfl, rfl, rfl⟩

/-- C2 counterexample: a valid credential for organization 1 targeting the
live instance 5 owned by organization 2 yields HTTP 404, not the 403 the
claim states (the instance query filters by the credential's organization,
so the cross-tenant case is reported as a missing instance). -/
theorem cross_tenant_status_counterexample :
    (handle_redis_command (fun k h => k == h)
      ⟨[⟨1, 1, some true, "k"⟩], [⟨5, 2, none⟩]⟩
      [("authorization", "Bearer k")] [] 5 true).status = 404
    ∧ ¬ (handle_redis_command (fun k h => k == h)
      ⟨[⟨1, 1, some true, "k"⟩], [⟨5, 2, none⟩]⟩
      [("authorization", "Bearer k")] [] 5 true).status = 403 := by
  decide

/-- C2 amended: a request with a valid credential of organization A
targeting an instance of a different organization B is rejected with
status 404 and body error "Redis instance not found", and no Redis
connection is attempted. -/
theorem cross_tenant_rejected_with_404
    (verify_password : String → String → Bool) (db : Db)
    (headers query : List (String × String)) (instance_id : Nat)
    (connect_ok : Bool) (api_key : String) (r : ApiKeyRecord)
    (hextract : extract_api_key headers query = some api_key)
    (hfind : find_api_key verify_password db api_key = some r)
    (hmismatch : ∀ inst ∈ db.redis_instances, inst.id = instance_id →
      inst.organization_id ≠ r.organization_id) :
    handle_redis_command verify_password db headers query instance_id
      connect_ok = ⟨404, some "Redis instance not found", false⟩ := by
  have hactive : r.is_active = some true := by
    have hmem := List.mem_of_find?_eq_some hfind
    have hfilt := (List.mem_filter.mp hmem).2
    simpa using hfilt
  have hlk : instance_lookup db instance_id r.organization_id = none := by
    apply List.find?_eq_none.mpr
    intro inst hmem
    simp only [Bool.and_eq_true, beq_iff_eq, not_and]
    intro h
    exact absurd h.2 (hmismatch inst hmem h.1)
  unfold handle_redis_command
  rw [hextract]
  simp [authenticate_and_get_instance, hfind, hactive, hlk]

/-- Witness for C2 (amended): the concrete cross-tenant database of the
counterexample indeed produces the full 404 trace with no connection
attempted. -/
theorem cross_tenant_rejected_with_404_witness :
    handle_redis_command (fun k h => k == h)
      ⟨[⟨1, 1, some true, "k"⟩], [⟨5, 2, none⟩]⟩
      [("authorization", "Bearer k")] [] 5 true =
      ⟨404, some "Redis instance not found", false⟩ :=
  cross_tenant_rejected_with_404 (fun k h => k == h)
    ⟨[⟨1, 1, some true, "k"⟩], [⟨5, 2, none⟩]⟩
    [("authorization", "Bearer k")] [] 5 true "k" ⟨1, 1, some true, "k"⟩
    (by decide) (by decide) (by decide)

/-- C6: credential extraction returns the Bearer token of the
`authorization` header when one is present — for every query, so the
header takes precedence over `_token` — otherwise the `_token` query
parameter when present; when neither is present extraction fails and every
command handler rejects the request with 401 "Missing API key". -/
theorem extract_api_key_spec (headers query : List (String × String)) :
    (∀ p t, headers.find? (fun q => q.fst == "authorization") = some p →
      p.snd = "Bearer " ++ t → extract_api_key headers query = some t)
    ∧ (headers.find? (fun q => q.fst == "authorization") = none →
      ∀ v, query_token query = some v →
        extract_api_key headers query = some v)
    ∧ (headers.find? (fun q => q.fst == "authorization") = none →
      query_token query = none →
      extract_api_key headers query = none
      ∧ ∀ verify_password db instance_id connect_ok,
        handle_redis_command verify_password db headers query instance_id
          connect_ok = ⟨401, some "Missing API key", false⟩) := by
  refine ⟨fun p t hp hval => ?_, fun hp v hv => ?_, fun hp hq => ⟨?_, ?_⟩⟩
  · obtain ⟨a, b⟩ := p
    simp only at hval
    subst hval
    unfold extract_api_key
    rw [hp]
    simp [bearer_token_append]
  · unfold extract_api_key
    rw [hp, hv]
  · unfold extract_api_key
    rw [hp, hq]
  · intro verify_password db instance_id connect_ok
    have hex : extract_api_key headers query = none := by
      unfold extract_api_key
      rw [hp, hq]
    unfold handle_redis_command
    rw [hex]

/-- Witness for C6: with both an `authorization: Bearer abc` header and a
`_token=zzz` query parameter supplied, extraction returns `abc`. -/
theorem extract_api_key_spec_witness :
    extract_api_key [("authorization", "Bearer abc")] [("_token", "zzz")] =
      some "abc" :=
  (extract_api_key_spec [("authorization", "Bearer abc")]
    [("_token", "zzz")]).1 ("authorization", "Bearer abc") "abc"
    (by decide) (by decide)

/-- C10: on the body-encoded endpoint, an authenticated request with an
empty JSON array body yields 400 "Empty command", and one whose first
element is not a JSON string yields 400 "Invalid command format"; in both
cases no Redis command is dispatched. -/
theorem generic_command_body_validation
    (verify_password : String → String → Bool) (db : Db)
    (headers query : List (String × String)) (instance_id : Nat)
    (exec : String → List String → GenericOutcome) (api_key : String)
    (inst : RedisInstance)
    (hextract : extract_api_key headers query = some api_key)
    (hauth : authenticate_and_get_instance verify_password db api_key
      instance_id = .ok inst) :
    handle_generic_command verify_password db headers query instance_id true
      [] exec = ⟨400, some "Empty command", none⟩
    ∧ ∀ first rest, as_str first = none →
      handle_generic_command verify_password db headers query instance_id
        true (first :: rest) exec =
        ⟨400, some "Invalid command format", none⟩ := by
  constructor
  · unfold handle_generic_command
    rw [hextract]
    simp [hauth]
  · intro first rest hstr
    unfold handle_generic_command
    rw [hextract]
    simp [hauth, hstr]

/-- Witness for C10: an authenticated request whose body's first element is
the JSON number 3 is rejected with 400 "Invalid command format" and no
command is dispatched. -/
theorem generic_command_body_validation_witness :
    handle_generic_command (fun k h => k == h)
      ⟨[⟨1, 7, some true, "k"⟩], [⟨5, 7, none⟩]⟩
      [("authorization", "Bearer k")] [] 5 true [.num 3]
      (fun c args => ⟨200, none, some (c, args)⟩) =
      ⟨400, some "Invalid command format", none⟩ :=
  (generic_command_body_validation (fun k h => k == h)
    ⟨[⟨1, 7, some true, "k"⟩], [⟨5, 7, none⟩]⟩
    [("authorization", "Bearer k")] [] 5
    (fun c args => ⟨200, none, some (c, args)⟩) "k" ⟨5, 7, none⟩
    (by decide) rfl).2 (.num 3) [] rfl

/-- C5: the reply encoder maps nil to JSON null, integer replies to the
same JSON number, bulk strings to the JSON string of their bytes when they
are valid UTF-8 and to JSON null otherwise, status strings (with `Okay`
encoded as "OK") to JSON strings, and arrays to the JSON array of the
recursively encoded elements; integers and valid-UTF-8 strings round-trip
exactly (every UTF-8 encoded string decodes back to itself). -/
theorem redis_value_to_json_spec :
    (redis_value_to_json .nil = .null)
    ∧ (∀ i : Int, redis_value_to_json (.int i) = .num i)
    ∧ (∀ bytes s, utf8Decode bytes = some s →
        redis_value_to_json (.data bytes) = .str s)
    ∧ (∀ bytes, utf8Decode bytes = none →
        redis_value_to_json (.data bytes) = .null)
    ∧ (∀ s, redis_value_to_json (.status s) = .str s)
    ∧ (redis_value_to_json .okay = .str "OK")
    ∧ (∀ values, redis_value_to_json (.bulk values) =
        .arr (values.map redis_value_to_json))
    ∧ (∀ s, redis_value_to_json (.data (utf8Encode s)) = .str s) := by
  refine ⟨by simp [redis_value_to_json], fun i => by simp [redis_value_to_json],
    fun bytes s h => by simp [redis_value_to_json, h],
    fun bytes h => by simp [redis_value_to_json, h],
    fun s => by simp [redis_value_to_json], by simp [redis_value_to_json],
    fun values => ?_, fun s => by
      simp [redis_value_to_json, utf8Decode_encode s]⟩
  rw [redis_value_to_json]
  rw [List.attach_map_val]

/-- Witness for C5: the bulk reply holding bytes `[0x68, 0x69]` encodes to
the JSON string "hi". -/
theorem redis_value_to_json_spec_witness :
    redis_value_to_json (.data [104, 105]) = .str "hi" :=
  redis_value_to_json_spec.2.2.1 [104, 105] "hi" (by decide)

end RedisGate
